import Mathlib

/-!
Verification of the scenario simulation engine of the token-launchpad
comparison dashboard.  The repository holds two variants of the same chart
component; both are embedded here over the real numbers, with `Math.pow`
rendered as `Real.rpow`, `Math.sqrt` as `Real.sqrt`, `Math.max`/`Math.min`
as `max`/`min`.  A separate small model of JavaScript number semantics
(`JSNum`, real values extended with `NaN` and signed infinities) is used for
the claims that are about non-finite propagation.

Namespace guide:
* `Launchpad.Chart1` — the component in `src/components/ProtocolChart.tsx`
  (Gobbler / Snapper / Ripper / linear M3M3 / exponential-surge Pump.fun,
  integer-step time loop `t = 0 .. 20`);
* `Launchpad.Chart2` — the other revision of `ProtocolChart.tsx`
  (compounding M3M3 / linear-surge Pump.fun / virtual-liquidity Gobbler,
  half-step generator `i / 2`, `i = 0 .. 2 * timeframe`);
* `Launchpad.JS` — the JavaScript number model.
-/

namespace Launchpad

noncomputable section

/-- Shared clamp: every model computes `timeHeld = Math.max(0, currentTime -
entryTime)`. -/
def timeHeld (entryTime currentTime : ℝ) : ℝ :=
  max 0 (currentTime - entryTime)

namespace Chart1

/-- One row of the integer-step simulation (`interface ProtocolData`). -/
structure ProtocolData where
  time : ℝ
  gobblerTotal : ℝ
  snapperTotal : ℝ
  ripperTotal : ℝ
  ripperAMM : ℝ
  ripperStaking : ℝ
  m3m3Total : ℝ
  m3m3Sol : ℝ
  m3m3Token : ℝ
  pumpFunTotal : ℝ

/-- Gobbler LP tokens: `initialDeposit * Math.max(2 - entryTime / 5, 1)`. -/
def gobblerLPTokens (initialDeposit entryTime : ℝ) : ℝ :=
  initialDeposit * max (2 - entryTime / 5) 1

/-- Gobbler accumulated fees: `lpTokens * timeHeld * 0.015`. -/
def gobblerFees (initialDeposit entryTime currentTime : ℝ) : ℝ :=
  gobblerLPTokens initialDeposit entryTime * timeHeld entryTime currentTime * 0.015

/-- `calculateGobblerReturns` (simple linear-fee variant). -/
def calculateGobblerReturns (initialDeposit entryTime currentTime : ℝ) : ProtocolData :=
  { time := currentTime
    gobblerTotal := gobblerLPTokens initialDeposit entryTime
      + gobblerFees initialDeposit entryTime currentTime
    snapperTotal := 0
    ripperTotal := 0
    ripperAMM := 0
    ripperStaking := 0
    m3m3Total := 0
    m3m3Sol := 0
    m3m3Token := 0
    pumpFunTotal := 0 }

/-- Snapper accumulated fees:
`lpTokens * timeHeld * 0.01 * Math.sqrt(1 + timeHeld * 0.3)` with
`lpTokens = initialDeposit`. -/
def snapperFees (initialDeposit entryTime currentTime : ℝ) : ℝ :=
  initialDeposit * timeHeld entryTime currentTime * 0.01
    * Real.sqrt (1 + timeHeld entryTime currentTime * 0.3)

/-- `calculateSnapperReturns`. -/
def calculateSnapperReturns (initialDeposit entryTime currentTime : ℝ) : ProtocolData :=
  { time := currentTime
    gobblerTotal := 0
    snapperTotal := initialDeposit + snapperFees initialDeposit entryTime currentTime
    ripperTotal := 0
    ripperAMM := 0
    ripperStaking := 0
    m3m3Total := 0
    m3m3Sol := 0
    m3m3Token := 0
    pumpFunTotal := 0 }

/-- `calculateMCMultiplier`: piecewise market-cap growth multiplier. -/
def calculateMCMultiplier (time : ℝ) : ℝ :=
  if time < 5 then
    (1.3 : ℝ) ^ time
  else if time < 10 then
    (1.3 : ℝ) ^ (5 : ℝ) * (1.15 : ℝ) ^ (time - 5)
  else
    (1.3 : ℝ) ^ (5 : ℝ) * (1.15 : ℝ) ^ (5 : ℝ) * (1.05 : ℝ) ^ (time - 10)

/-- Ripper LP tokens: `initialLPAmount = initialDeposit * 0.6`, plus an early
bonus `initialLPAmount * (0.5 * (4 - entryTime) / 4)` when `entryTime <= 4`. -/
def ripperLPTokens (initialDeposit entryTime : ℝ) : ℝ :=
  let initialLPAmount := initialDeposit * 0.6
  if entryTime ≤ 4 then
    initialLPAmount + initialLPAmount * (0.5 * (4 - entryTime) / 4)
  else
    initialLPAmount

/-- Ripper non-LP portion value:
`(initialDeposit * (1 - 0.6)) * calculateMCMultiplier(currentTime)`. -/
def ripperNonLPValue (initialDeposit currentTime : ℝ) : ℝ :=
  initialDeposit * (1 - 0.6) * calculateMCMultiplier currentTime

/-- `calculateRipperReturns`: hybrid AMM + staking model. -/
def calculateRipperReturns (initialDeposit entryTime currentTime : ℝ)
    (isTopStaker : Bool) : ProtocolData :=
  let lpTokens := ripperLPTokens initialDeposit entryTime
  let th := timeHeld entryTime currentTime
  let baseRate := 0.01 * (1 + currentTime * 0.05)
  let ammFees := lpTokens * th * baseRate
  let stakingRewards :=
    if isTopStaker then lpTokens * 0.30 * min (1 + th * 0.15) 2.5 * (th / 20) else 0
  let nonLPValue := ripperNonLPValue initialDeposit currentTime
  { time := currentTime
    gobblerTotal := 0
    snapperTotal := 0
    ripperTotal := lpTokens + ammFees + stakingRewards + nonLPValue
    ripperAMM := ammFees
    ripperStaking := stakingRewards
    m3m3Total := 0
    m3m3Sol := 0
    m3m3Token := 0
    pumpFunTotal := 0 }

/-- `calculateM3M3Returns` (linear accrual variant). -/
def calculateM3M3Returns (initialDeposit entryTime currentTime : ℝ)
    (isTopStaker : Bool) : ProtocolData :=
  let th := timeHeld entryTime currentTime
  if !isTopStaker then
    { time := currentTime
      gobblerTotal := 0
      snapperTotal := 0
      ripperTotal := 0
      ripperAMM := 0
      ripperStaking := 0
      m3m3Total := initialDeposit
      m3m3Sol := 0
      m3m3Token := 0
      pumpFunTotal := 0 }
  else
    let baseAPY : ℝ := 0.35
    let stakingMultiplier := min (1 + th * 0.15) 3
    let totalRewards := initialDeposit * (baseAPY * stakingMultiplier) * (th / 20)
    let solRewards := totalRewards * 0.3
    let tokenRewards := totalRewards * 0.7
    { time := currentTime
      gobblerTotal := 0
      snapperTotal := 0
      ripperTotal := 0
      ripperAMM := 0
      ripperStaking := 0
      m3m3Total := initialDeposit + solRewards + tokenRewards
      m3m3Sol := solRewards
      m3m3Token := tokenRewards
      pumpFunTotal := 0 }

/-- The inline Pump.fun value of the integer-step simulation loop
(exponential-surge variant, floored at a tenth of the deposit for `t >= 10`). -/
def pumpFunValue (deposit : ℝ) (t : ℕ) : ℝ :=
  if t = 0 then deposit
  else if t < 5 then deposit * (1.5 : ℝ) ^ (t : ℝ)
  else if t < 10 then deposit * (1.2 : ℝ) ^ (t : ℝ)
  else max (deposit * (0.9 : ℝ) ^ ((t : ℝ) - 10)) (deposit * 0.1)

/-- One merged row of the integer-step loop: the spread of the Gobbler record
with the other models' fields written over it. -/
def mkSimPoint (deposit entryTime : ℝ) (isTopStaker : Bool) (t : ℕ) : ProtocolData :=
  let gobbler := calculateGobblerReturns deposit entryTime t
  let snapper := calculateSnapperReturns deposit entryTime t
  let ripper := calculateRipperReturns deposit entryTime t isTopStaker
  let m3m3 := calculateM3M3Returns deposit entryTime t isTopStaker
  { gobbler with
    snapperTotal := snapper.snapperTotal
    ripperTotal := ripper.ripperTotal
    ripperAMM := ripper.ripperAMM
    ripperStaking := ripper.ripperStaking
    m3m3Total := m3m3.m3m3Total
    m3m3Sol := m3m3.m3m3Sol
    m3m3Token := m3m3.m3m3Token
    pumpFunTotal := pumpFunValue deposit t }

/-- The integer-step simulation loop `for (let t = 0; t <= 20; t++)`. -/
def simulationData (deposit entryTime : ℝ) (isTopStaker : Bool) : List ProtocolData :=
  (List.range 21).map (mkSimPoint deposit entryTime isTopStaker)

end Chart1

namespace Chart2

/-- `interface RewardParams`. -/
structure RewardParams where
  solTokenRatio : ℝ
  compoundPeriod : ℝ
  lockDurationMultiplier : ℝ
  showCombinedRewards : Bool

/-- The bonding-curve selector of `interface BondingParams`. -/
inductive CurveType where
  | standard : CurveType
  | quadratic : CurveType

/-- `interface BondingParams`. -/
structure BondingParams where
  lpTokenRatio : ℝ
  initialMCTarget : ℝ
  bondingMCTarget : ℝ
  poolThickness : ℝ
  curveType : CurveType

/-- The `feeDistribution` sub-object of `interface InvestmentParams`. -/
structure FeeDistribution where
  lp : ℝ
  staking : ℝ
  protocol : ℝ

/-- `interface InvestmentParams`. -/
structure InvestmentParams where
  feeDistribution : FeeDistribution
  baseStakingAPY : ℝ
  earlyLPBonus : ℝ
  returnTimeframe : ℝ

/-- `calculateCompoundedReturns`:
`principal * Math.pow(1 + apy / periods, periods)`. -/
def calculateCompoundedReturns (principal apy periods : ℝ) : ℝ :=
  principal * (1 + apy / periods) ^ periods

/-- The record returned by the compounding `calculateM3M3Returns`. -/
structure M3M3Result where
  total : ℝ
  sol : ℝ
  token : ℝ
  apy : ℝ

/-- `calculateM3M3Returns` (compounding accrual variant): the period count
passed to `calculateCompoundedReturns` is `compoundPeriod * timeHeld`. -/
def calculateM3M3Returns (initialDeposit entryTime currentTime : ℝ)
    (isTopStaker : Bool) (rewardParams : RewardParams) : M3M3Result :=
  let th := timeHeld entryTime currentTime
  if !isTopStaker then
    { total := initialDeposit, sol := 0, token := 0, apy := 0 }
  else
    let baseAPY : ℝ := 0.35
    let stakingMultiplier := min (1 + th * 0.15) 3
    let effectiveAPY := baseAPY * stakingMultiplier
    let totalRewards :=
      calculateCompoundedReturns initialDeposit effectiveAPY
        (rewardParams.compoundPeriod * th) - initialDeposit
    let solRewards := totalRewards * rewardParams.solTokenRatio
    let tokenRewards := totalRewards * (1 - rewardParams.solTokenRatio)
    { total := initialDeposit + totalRewards
      sol := solRewards
      token := tokenRewards
      apy := effectiveAPY * 100 }

/-- The record returned by `calculatePumpFunReturns`. -/
structure PumpFunResult where
  total : ℝ
  price : ℝ
  liquidity : ℝ

/-- `calculatePumpFunReturns` (linear-surge variant): note that the mature
phase `t >= 10` applies no floor. -/
def calculatePumpFunReturns (initialDeposit currentTime : ℝ)
    (bondingParams : BondingParams) : PumpFunResult :=
  let price :=
    if currentTime < 5 then initialDeposit * (1 + currentTime * 0.2)
    else if currentTime < 10 then initialDeposit * 2
    else initialDeposit * 2 * (0.95 : ℝ) ^ (currentTime - 10)
  { total := price
    price := price
    liquidity := price * bondingParams.lpTokenRatio }

/-- The record returned by the virtual-liquidity `calculateGobblerReturns`. -/
structure GobblerResult where
  total : ℝ
  liquidity : ℝ
  virtualLiquidity : ℝ
  fees : ℝ

/-- `calculateGobblerReturns` (virtual-liquidity variant): the base liquidity
is `Math.sqrt(initialDeposit * initialDeposit)`; the `investmentParams`
argument and the `virtualAlpha` constant are unused by the body, as in the
source. -/
def calculateGobblerReturns (initialDeposit entryTime currentTime : ℝ)
    (investmentParams : InvestmentParams) : GobblerResult :=
  let th := timeHeld entryTime currentTime
  let earlyBonus := max 0 ((5 - entryTime) * 0.1)
  let virtualMultiplier := 1 + earlyBonus
  let baseLiquidity := Real.sqrt (initialDeposit * initialDeposit)
  let virtualLiquidity := baseLiquidity * virtualMultiplier
  let baseRate : ℝ := 0.01
  let fees := virtualLiquidity * th * baseRate * (1 + th * 0.05)
  { total := baseLiquidity + fees
    liquidity := baseLiquidity
    virtualLiquidity := virtualLiquidity
    fees := fees }

/-- One row of the half-step simulation (`interface ProtocolData` of this
revision). -/
structure ProtocolData where
  time : ℝ
  m3m3Total : ℝ
  m3m3Sol : ℝ
  m3m3Token : ℝ
  m3m3APY : ℝ
  pumpFunTotal : ℝ
  pumpFunPrice : ℝ
  pumpFunLiquidity : ℝ
  gobblerTotal : ℝ
  gobblerLiquidity : ℝ
  gobblerVirtualLiquidity : ℝ
  gobblerFees : ℝ

/-- The half-step time grid
`Array.from({length: timeframe * 2 + 1}, (_, i) => i / 2)`. -/
def timePoints (timeframe : ℕ) : List ℝ :=
  (List.range (timeframe * 2 + 1)).map (fun i : ℕ => (i : ℝ) / 2)

/-- One row of the half-step generator at time `t` (the models are called
with `entryTime = 0`, as in the source). -/
def mkSimPoint (initialDeposit : ℝ) (isTopStaker : Bool)
    (investmentParams : InvestmentParams) (bondingParams : BondingParams)
    (rewardParams : RewardParams) (t : ℝ) : ProtocolData :=
  let m3m3Returns := calculateM3M3Returns initialDeposit 0 t isTopStaker rewardParams
  let pumpFunReturns := calculatePumpFunReturns initialDeposit t bondingParams
  let gobblerReturns := calculateGobblerReturns initialDeposit 0 t investmentParams
  { time := t
    m3m3Total := m3m3Returns.total
    m3m3Sol := m3m3Returns.sol
    m3m3Token := m3m3Returns.token
    m3m3APY := m3m3Returns.apy
    pumpFunTotal := pumpFunReturns.total
    pumpFunPrice := pumpFunReturns.price
    pumpFunLiquidity := pumpFunReturns.liquidity
    gobblerTotal := gobblerReturns.total
    gobblerLiquidity := gobblerReturns.liquidity
    gobblerVirtualLiquidity := gobblerReturns.virtualLiquidity
    gobblerFees := gobblerReturns.fees }

/-- `generateSimulationData`: the half-step time series. -/
def generateSimulationData (timeframe : ℕ) (initialDeposit : ℝ)
    (isTopStaker : Bool) (investmentParams : InvestmentParams)
    (bondingParams : BondingParams) (rewardParams : RewardParams) :
    List ProtocolData :=
  (timePoints timeframe).map
    (mkSimPoint initialDeposit isTopStaker investmentParams bondingParams rewardParams)

end Chart2

namespace JS

/-- JavaScript number semantics, idealized: a finite value is an exact real
(rounding and overflow are not modelled), and the special values `NaN`,
`Infinity` and `-Infinity` are explicit, so that the propagation of
non-finite values through the engine can be stated. Signed zero is not
modelled (`-0` is `num 0`). -/
inductive JSNum where
  | nan : JSNum
  | posInf : JSNum
  | negInf : JSNum
  | num : ℝ → JSNum

/-- JS unary minus. -/
def jsNeg : JSNum → JSNum
  | .nan => .nan
  | .posInf => .negInf
  | .negInf => .posInf
  | .num a => .num (-a)

/-- JS addition. -/
def jsAdd : JSNum → JSNum → JSNum
  | .nan, _ => .nan
  | _, .nan => .nan
  | .num a, .num b => .num (a + b)
  | .posInf, .negInf => .nan
  | .negInf, .posInf => .nan
  | .posInf, _ => .posInf
  | _, .posInf => .posInf
  | .negInf, _ => .negInf
  | _, .negInf => .negInf

/-- JS subtraction (`x - y` behaves as `x + (-y)`). -/
def jsSub (x y : JSNum) : JSNum :=
  jsAdd x (jsNeg y)

/-- JS multiplication. -/
def jsMul : JSNum → JSNum → JSNum
  | .nan, _ => .nan
  | _, .nan => .nan
  | .num a, .num b => .num (a * b)
  | .num a, .posInf => if a = 0 then .nan else if 0 < a then .posInf else .negInf
  | .num a, .negInf => if a = 0 then .nan else if 0 < a then .negInf else .posInf
  | .posInf, .num b => if b = 0 then .nan else if 0 < b then .posInf else .negInf
  | .negInf, .num b => if b = 0 then .nan else if 0 < b then .negInf else .posInf
  | .posInf, .posInf => .posInf
  | .posInf, .negInf => .negInf
  | .negInf, .posInf => .negInf
  | .negInf, .negInf => .posInf

/-- JS division (without signed zero, a nonzero value divided by zero is
`Infinity` or `-Infinity` by the numerator's sign, and `0 / 0` is `NaN`). -/
def jsDiv : JSNum → JSNum → JSNum
  | .nan, _ => .nan
  | _, .nan => .nan
  | .num a, .num b =>
      if b = 0 then
        if a = 0 then .nan else if 0 < a then .posInf else .negInf
      else .num (a / b)
  | .num _, .posInf => .num 0
  | .num _, .negInf => .num 0
  | .posInf, .num b => if 0 ≤ b then .posInf else .negInf
  | .negInf, .num b => if 0 ≤ b then .negInf else .posInf
  | .posInf, _ => .nan
  | .negInf, _ => .nan

/-- JS `Math.max` (any `NaN` argument wins). -/
def jsMax : JSNum → JSNum → JSNum
  | .nan, _ => .nan
  | _, .nan => .nan
  | .posInf, _ => .posInf
  | _, .posInf => .posInf
  | .negInf, y => y
  | x, .negInf => x
  | .num a, .num b => .num (max a b)

/-- JS `Math.min` (any `NaN` argument wins). -/
def jsMin : JSNum → JSNum → JSNum
  | .nan, _ => .nan
  | _, .nan => .nan
  | .negInf, _ => .negInf
  | _, .negInf => .negInf
  | .posInf, y => y
  | x, .posInf => x
  | .num a, .num b => .num (min a b)

/-- Whether a real number is an integer (the exponent test of `Math.pow` for
negative bases). -/
def jsIsInt (e : ℝ) : Prop :=
  ∃ n : ℤ, (n : ℝ) = e

/-- Whether a real number is an odd integer. -/
def jsIsOddInt (e : ℝ) : Prop :=
  ∃ n : ℤ, Odd n ∧ (n : ℝ) = e

open Classical in
/-- JS `Math.pow`: any base to exponent `0` is `1` (even `NaN`), a negative
finite base to a non-integer finite exponent is `NaN`, a zero base to a
negative exponent is `Infinity`, and the infinite cases follow the
ECMAScript table (signed zero results collapsed to `num 0`). -/
def jsPow (x y : JSNum) : JSNum :=
  match y with
  | .num e =>
    if e = 0 then .num 1 else
    match x with
    | .nan => .nan
    | .posInf => if 0 < e then .posInf else .num 0
    | .negInf =>
        if 0 < e then (if jsIsOddInt e then .negInf else .posInf) else .num 0
    | .num b =>
        if b = 0 then (if 0 < e then .num 0 else .posInf)
        else if b < 0 ∧ ¬ jsIsInt e then .nan
        else .num (b ^ e)
  | .nan => .nan
  | .posInf =>
    match x with
    | .nan => .nan
    | .posInf => .posInf
    | .negInf => .posInf
    | .num b => if 1 < |b| then .posInf else if |b| = 1 then .nan else .num 0
  | .negInf =>
    match x with
    | .nan => .nan
    | .posInf => .num 0
    | .negInf => .num 0
    | .num b => if 1 < |b| then .num 0 else if |b| = 1 then .nan else .posInf

/-- JS `isFinite`. -/
def jsFiniteB : JSNum → Bool
  | .num _ => true
  | _ => false

/-- `calculateCompoundedReturns` over JS numbers. -/
def jsCalculateCompoundedReturns (principal apy periods : JSNum) : JSNum :=
  jsMul principal (jsPow (jsAdd (.num 1) (jsDiv apy periods)) periods)

/-- `RewardParams` over JS numbers. -/
structure RewardParamsJS where
  solTokenRatio : JSNum
  compoundPeriod : JSNum
  lockDurationMultiplier : JSNum
  showCombinedRewards : Bool

/-- The compounding `calculateM3M3Returns` result over JS numbers. -/
structure M3M3ResultJS where
  total : JSNum
  sol : JSNum
  token : JSNum
  apy : JSNum

/-- The compounding `calculateM3M3Returns` over JS numbers, mirroring the
source statement for statement. -/
def jsCalculateM3M3Returns (initialDeposit entryTime currentTime : JSNum)
    (isTopStaker : Bool) (rewardParams : RewardParamsJS) : M3M3ResultJS :=
  let th := jsMax (.num 0) (jsSub currentTime entryTime)
  if !isTopStaker then
    { total := initialDeposit, sol := .num 0, token := .num 0, apy := .num 0 }
  else
    let baseAPY : JSNum := .num 0.35
    let stakingMultiplier := jsMin (jsAdd (.num 1) (jsMul th (.num 0.15))) (.num 3)
    let effectiveAPY := jsMul baseAPY stakingMultiplier
    let totalRewards :=
      jsSub
        (jsCalculateCompoundedReturns initialDeposit effectiveAPY
          (jsMul rewardParams.compoundPeriod th))
        initialDeposit
    let solRewards := jsMul totalRewards rewardParams.solTokenRatio
    let tokenRewards := jsMul totalRewards (jsSub (.num 1) rewardParams.solTokenRatio)
    { total := jsAdd initialDeposit totalRewards
      sol := solRewards
      token := tokenRewards
      apy := jsMul effectiveAPY (.num 100) }

end JS

namespace Chart1

/-- `generateCurvePoints` over JS numbers: samples `formula` on an evenly
spaced grid and keeps only the points whose value is finite (the source marks
a non-finite `y` as `null` and filters the nulls out; the argument the source
calls `end` is `stop` here). -/
def generateCurvePoints (formula : JS.JSNum → JS.JSNum) (start stop : JS.JSNum)
    (points : ℕ) : List (JS.JSNum × JS.JSNum) :=
  let step := JS.jsDiv (JS.jsSub stop start) (.num points)
  ((List.range (points + 1)).map (fun i =>
    let x := JS.jsAdd start (JS.jsMul step (.num i))
    (x, formula x))).filter (fun p => JS.jsFiniteB p.2)

end Chart1

end

/-! ### Evaluation lemmas for the JS number model -/

namespace JS

theorem jsNeg_num (a : ℝ) : jsNeg (.num a) = .num (-a) := rfl

theorem jsAdd_num (a b : ℝ) : jsAdd (.num a) (.num b) = .num (a + b) := rfl

theorem jsSub_num (a b : ℝ) : jsSub (.num a) (.num b) = .num (a - b) := by
  rw [jsSub, jsNeg_num, jsAdd_num, sub_eq_add_neg]

theorem jsMul_num (a b : ℝ) : jsMul (.num a) (.num b) = .num (a * b) := rfl

theorem jsMax_num (a b : ℝ) : jsMax (.num a) (.num b) = .num (max a b) := rfl

theorem jsMin_num (a b : ℝ) : jsMin (.num a) (.num b) = .num (min a b) := rfl

theorem jsDiv_num (a b : ℝ) (hb : b ≠ 0) : jsDiv (.num a) (.num b) = .num (a / b) := by
  simp [jsDiv, hb]

theorem jsDiv_num_zero_pos (a : ℝ) (ha : 0 < a) : jsDiv (.num a) (.num 0) = .posInf := by
  simp [jsDiv, ha.ne', ha]

theorem jsAdd_num_posInf (a : ℝ) : jsAdd (.num a) .posInf = .posInf := rfl

theorem jsAdd_num_nan (a : ℝ) : jsAdd (.num a) .nan = .nan := rfl

theorem jsSub_nan_left (y : JSNum) : jsSub .nan y = .nan := by
  cases y <;> rfl

theorem jsMul_num_nan (a : ℝ) : jsMul (.num a) .nan = .nan := rfl

theorem jsMul_nan_left (y : JSNum) : jsMul .nan y = .nan := by
  cases y <;> rfl

theorem jsPow_exp_zero (x : JSNum) : jsPow x (.num 0) = .num 1 := by
  cases x <;> simp [jsPow]

theorem jsPow_num_neg_nonint (b e : ℝ) (he0 : e ≠ 0) (hb : b < 0)
    (he : ¬ jsIsInt e) : jsPow (.num b) (.num e) = .nan := by
  simp [jsPow, he0, hb, hb.ne, he]

theorem jsFiniteB_nan : jsFiniteB .nan = false := rfl

end JS

/-! ### C2 — non-finite values are not substituted -/

/-- C2 counterexample: with the out-of-range `compoundPeriod = -1/4` (and
otherwise default parameters `solTokenRatio = 3/10`, `initialDeposit = 1000`,
`entryTime = 0`, `isTopStaker = true`), at `currentTime = 1` the compounding
power has negative base `1 + 0.4025 / (-1/4) = -0.61` and fractional exponent
`-1/4`, so `Math.pow` yields `NaN`, which propagates into the returned
`total` unsubstituted: the output field is not finite. -/
theorem m3m3_nan_not_substituted :
    (JS.jsCalculateM3M3Returns (.num 1000) (.num 0) (.num 1) true
        ⟨.num (3 / 10), .num (-(1 / 4)), .num 1, true⟩).total = JS.JSNum.nan ∧
    JS.jsFiniteB ((JS.jsCalculateM3M3Returns (.num 1000) (.num 0) (.num 1) true
        ⟨.num (3 / 10), .num (-(1 / 4)), .num 1, true⟩).total) = false := by
  have htot : (JS.jsCalculateM3M3Returns (.num 1000) (.num 0) (.num 1) true
      ⟨.num (3 / 10), .num (-(1 / 4)), .num 1, true⟩).total = JS.JSNum.nan := by
    simp only [JS.jsCalculateM3M3Returns, JS.jsCalculateCompoundedReturns,
      Bool.not_true, Bool.false_eq_true, if_false, JS.jsSub_num, JS.jsMax_num,
      JS.jsMul_num, JS.jsAdd_num, JS.jsMin_num]
    rw [JS.jsDiv_num _ _ (by norm_num), JS.jsAdd_num,
      JS.jsPow_num_neg_nonint _ _ (by norm_num) (by norm_num)
        (by
          rintro ⟨n, hn⟩
          norm_num at hn
          have h5 : (4 * n : ℤ) = -1 := by
            have h4 : ((4 * n : ℤ) : ℝ) = -1 := by push_cast; linarith
            exact_mod_cast h4
          omega),
      JS.jsMul_num_nan, JS.jsSub_nan_left, JS.jsAdd_num_nan]
  exact ⟨htot, by rw [htot, JS.jsFiniteB_nan]⟩

/-- C2 amended: the engine itself never substitutes a non-finite component
(see `m3m3_nan_not_substituted`); the only finiteness guard in the source is
`generateCurvePoints`, which drops a sampled point whose value is not finite
instead of replacing it by 0 — every point it returns has a finite value. -/
theorem curvePoints_all_finite (formula : JS.JSNum → JS.JSNum)
    (start stop : JS.JSNum) (points : ℕ) :
    ((Chart1.generateCurvePoints formula start stop points).map Prod.snd).Forall
      (fun y => JS.jsFiniteB y = true) := by
  rw [List.forall_iff_forall_mem]
  intro y hy
  rcases List.mem_map.mp hy with ⟨p, hp, rfl⟩
  simp only [Chart1.generateCurvePoints] at hp
  exact (List.mem_filter.mp hp).2

/-! ### C1 — reconciliation -/

/-- C1: for every protocol model of both revisions, the reported total is the
sum of that point's own disclosed components: the Gobbler and Snapper totals
are LP tokens (resp. base liquidity) plus fees, the M3M3 total (both accrual
variants) is `initialDeposit + solRewards + tokenRewards`, the Ripper total is
`lpTokens + ammFees + stakingRewards + nonLPValue`, and the Pump.fun total is
the price.  Every generated series point applies these functions, so the
round-trip holds at every point. -/
theorem total_reconciles_components (d e t : ℝ) (staker : Bool)
    (rp : Chart2.RewardParams) (bp : Chart2.BondingParams)
    (ip : Chart2.InvestmentParams) :
    (Chart1.calculateGobblerReturns d e t).gobblerTotal
        = Chart1.gobblerLPTokens d e + Chart1.gobblerFees d e t ∧
    (Chart1.calculateSnapperReturns d e t).snapperTotal
        = d + Chart1.snapperFees d e t ∧
    (Chart1.calculateM3M3Returns d e t staker).m3m3Total
        = d + (Chart1.calculateM3M3Returns d e t staker).m3m3Sol
            + (Chart1.calculateM3M3Returns d e t staker).m3m3Token ∧
    (Chart1.calculateRipperReturns d e t staker).ripperTotal
        = Chart1.ripperLPTokens d e
            + (Chart1.calculateRipperReturns d e t staker).ripperAMM
            + (Chart1.calculateRipperReturns d e t staker).ripperStaking
            + Chart1.ripperNonLPValue d t ∧
    (Chart2.calculateM3M3Returns d e t staker rp).total
        = d + (Chart2.calculateM3M3Returns d e t staker rp).sol
            + (Chart2.calculateM3M3Returns d e t staker rp).token ∧
    (Chart2.calculateGobblerReturns d e t ip).total
        = (Chart2.calculateGobblerReturns d e t ip).liquidity
            + (Chart2.calculateGobblerReturns d e t ip).fees ∧
    (Chart2.calculatePumpFunReturns d t bp).total
        = (Chart2.calculatePumpFunReturns d t bp).price := by
  refine ⟨rfl, rfl, ?_, ?_, ?_, rfl, rfl⟩ <;> cases staker <;>
    simp [Chart1.calculateM3M3Returns, Chart1.calculateRipperReturns,
      Chart2.calculateM3M3Returns] <;> ring

/-! ### C3 — compounding accrual formula -/

/-- C3 counterexample: at `initialDeposit = 1000`, `entryTime = 0`,
`currentTime = 2`, `compoundPeriod = 1`, `isTopStaker = true`, the code's
total is `1000 * (1 + 0.455 / 2) ^ 2 = 1506.75625` — the effective APY is
divided by `compoundPeriod * timeHeld`, not by `compoundPeriod` — while the
claimed formula gives `1000 * (1 + 0.455 / 1) ^ (1 * 2) = 2117.025`. -/
theorem m3m3_compound_claim_false :
    (Chart2.calculateM3M3Returns 1000 0 2 true ⟨3 / 10, 1, 1, true⟩).total ≠
      1000 + (1000 * (1 + (0.35 * min (1 + (2 : ℝ) * 0.15) 3) / 1)
        ^ ((1 : ℝ) * 2) - 1000) := by
  simp only [Chart2.calculateM3M3Returns, Chart2.calculateCompoundedReturns,
    Bool.not_true, Bool.false_eq_true, if_false, timeHeld]
  rw [show (1 * max 0 ((2 : ℝ) - 0)) = ((2 : ℕ) : ℝ) by norm_num,
    show ((1 : ℝ) * 2) = ((2 : ℕ) : ℝ) by norm_num,
    Real.rpow_natCast, Real.rpow_natCast]
  norm_num

/-- C3 amended: in the compounding variant, for every top-staker input,
`totalRewards = initialDeposit *
(1 + effectiveAPY / (compoundPeriod * timeHeld)) ^ (compoundPeriod * timeHeld)
- initialDeposit` with `effectiveAPY = 0.35 * min(1 + timeHeld * 0.15, 3)`:
the period count handed to the compounding helper is
`compoundPeriod * timeHeld`, and the helper divides the APY by that same
product. -/
theorem m3m3_compound_formula (d e t sr cp lm : ℝ) (sc : Bool) :
    (Chart2.calculateM3M3Returns d e t true ⟨sr, cp, lm, sc⟩).total =
      d + (d * (1 + (0.35 * min (1 + timeHeld e t * 0.15) 3)
          / (cp * timeHeld e t)) ^ (cp * timeHeld e t) - d) := by
  simp [Chart2.calculateM3M3Returns, Chart2.calculateCompoundedReturns]

/-! ### C4 — bonding-curve mature-phase floor -/

/-- C4 counterexample: in the linear-surge variant there is no floor: at
`initialDeposit = 1000`, `t = 70`, the code's price is
`2000 * 0.95 ^ 60 < 100`, which differs from the claimed
`max(2000 * 0.95 ^ 60, 100) = 100` — the price does fall below a tenth of
the deposit. -/
theorem pumpfun_floor_claim_false :
    (Chart2.calculatePumpFunReturns 1000 70
        ⟨1 / 5, 1000000, 69000000, 1 / 5, .standard⟩).price ≠
      max (1000 * 2 * (0.95 : ℝ) ^ ((70 : ℝ) - 10)) (1000 * 0.1) := by
  have hlt : (1000 : ℝ) * 2 * (0.95 : ℝ) ^ ((70 : ℝ) - 10) < 1000 * 0.1 := by
    rw [show ((70 : ℝ) - 10) = ((60 : ℕ) : ℝ) by norm_num, Real.rpow_natCast]
    norm_num
  have hp : (Chart2.calculatePumpFunReturns 1000 70
      ⟨1 / 5, 1000000, 69000000, 1 / 5, .standard⟩).price
      = 1000 * 2 * (0.95 : ℝ) ^ ((70 : ℝ) - 10) := by
    simp only [Chart2.calculatePumpFunReturns]
    rw [if_neg (by norm_num), if_neg (by norm_num)]
  rw [hp, max_eq_right hlt.le]
  exact hlt.ne

/-- C4 amended: in the linear-surge variant the mature-phase price is exactly
`initialDeposit * 2 * 0.95 ^ (t - 10)` with no floor (so it can drop below a
tenth of the deposit, see `pumpfun_floor_claim_false`); the
`max(..., deposit * 0.1)` floor belongs to the exponential-surge variant of
the other revision, whose mature-phase value is
`max(deposit * 0.9 ^ (t - 10), deposit * 0.1)`. -/
theorem pumpfun_mature_price (d t : ℝ) (bp : Chart2.BondingParams)
    (dep : ℝ) (n : ℕ) (ht : (10 : ℝ) ≤ t) (hn : 10 ≤ n) :
    (Chart2.calculatePumpFunReturns d t bp).price
        = d * 2 * (0.95 : ℝ) ^ (t - 10) ∧
    Chart1.pumpFunValue dep n
        = max (dep * (0.9 : ℝ) ^ ((n : ℝ) - 10)) (dep * 0.1) := by
  constructor
  · simp only [Chart2.calculatePumpFunReturns]
    rw [if_neg (not_lt.mpr (by linarith)), if_neg (not_lt.mpr (by linarith))]
  · simp only [Chart1.pumpFunValue]
    rw [if_neg (by omega), if_neg (by omega), if_neg (by omega)]

/-- Witness for `pumpfun_mature_price` at `t = 12`. -/
theorem pumpfun_mature_price_witness :
    (10 : ℝ) ≤ 12 ∧ 10 ≤ 12 ∧
    ((Chart2.calculatePumpFunReturns 1000 12
        ⟨1 / 5, 1000000, 69000000, 1 / 5, .standard⟩).price
          = 1000 * 2 * (0.95 : ℝ) ^ ((12 : ℝ) - 10) ∧
      Chart1.pumpFunValue 1000 12
          = max (1000 * (0.9 : ℝ) ^ (((12 : ℕ) : ℝ) - 10)) (1000 * 0.1)) :=
  ⟨by norm_num, by norm_num,
    pumpfun_mature_price 1000 12 ⟨1 / 5, 1000000, 69000000, 1 / 5, .standard⟩
      1000 12 (by norm_num) (by norm_num)⟩

/-! ### C5 — negative-time clamping -/

/-- C5: `timeHeld = max(0, currentTime - entryTime)` is never negative, and
for `entryTime > t` every timeHeld-dependent component (the fee accruals of
Gobbler and Snapper in both revisions, the Ripper AMM fees and staking
rewards, the M3M3 reward components of both accrual variants) equals its
value at `timeHeld = 0`, namely `0` (and the M3M3 totals equal the bare
deposit): no negative-time effect leaks into any component. -/
theorem timeHeld_clamp (d e t : ℝ) (staker : Bool) (rp : Chart2.RewardParams)
    (ip : Chart2.InvestmentParams) (h : t < e) :
    (∀ e' t' : ℝ, 0 ≤ timeHeld e' t') ∧
    timeHeld e t = 0 ∧
    Chart1.gobblerFees d e t = 0 ∧
    Chart1.snapperFees d e t = 0 ∧
    (Chart1.calculateRipperReturns d e t staker).ripperAMM = 0 ∧
    (Chart1.calculateRipperReturns d e t staker).ripperStaking = 0 ∧
    (Chart1.calculateM3M3Returns d e t staker).m3m3Sol = 0 ∧
    (Chart1.calculateM3M3Returns d e t staker).m3m3Token = 0 ∧
    (Chart1.calculateM3M3Returns d e t staker).m3m3Total = d ∧
    (Chart2.calculateGobblerReturns d e t ip).fees = 0 ∧
    (Chart2.calculateM3M3Returns d e t staker rp).sol = 0 ∧
    (Chart2.calculateM3M3Returns d e t staker rp).token = 0 ∧
    (Chart2.calculateM3M3Returns d e t staker rp).total = d := by
  have hth : timeHeld e t = 0 := by
    rw [timeHeld, max_eq_left (by linarith)]
  refine ⟨fun e' t' => le_max_left _ _, hth,
    ?_, ?_, ?_, ?_, ?_, ?_, ?_, ?_, ?_, ?_, ?_⟩ <;> cases staker <;>
    simp [Chart1.gobblerFees, Chart1.snapperFees, Chart1.calculateRipperReturns,
      Chart1.calculateM3M3Returns, Chart2.calculateGobblerReturns,
      Chart2.calculateM3M3Returns, Chart2.calculateCompoundedReturns, hth,
      Real.rpow_zero]

/-- Witness for `timeHeld_clamp` at `d = 5`, `e = 1`, `t = 0`, a top staker,
default reward and investment parameters. -/
theorem timeHeld_clamp_witness :
    (0 : ℝ) < 1 ∧
    ((∀ e' t' : ℝ, 0 ≤ timeHeld e' t') ∧
    timeHeld 1 0 = 0 ∧
    Chart1.gobblerFees 5 1 0 = 0 ∧
    Chart1.snapperFees 5 1 0 = 0 ∧
    (Chart1.calculateRipperReturns 5 1 0 true).ripperAMM = 0 ∧
    (Chart1.calculateRipperReturns 5 1 0 true).ripperStaking = 0 ∧
    (Chart1.calculateM3M3Returns 5 1 0 true).m3m3Sol = 0 ∧
    (Chart1.calculateM3M3Returns 5 1 0 true).m3m3Token = 0 ∧
    (Chart1.calculateM3M3Returns 5 1 0 true).m3m3Total = 5 ∧
    (Chart2.calculateGobblerReturns 5 1 0
        ⟨⟨3 / 5, 3 / 10, 1 / 10⟩, 1 / 4, 1 / 2, 20⟩).fees = 0 ∧
    (Chart2.calculateM3M3Returns 5 1 0 true ⟨3 / 10, 1, 1, true⟩).sol = 0 ∧
    (Chart2.calculateM3M3Returns 5 1 0 true ⟨3 / 10, 1, 1, true⟩).token = 0 ∧
    (Chart2.calculateM3M3Returns 5 1 0 true ⟨3 / 10, 1, 1, true⟩).total = 5) :=
  ⟨by norm_num,
    timeHeld_clamp 5 1 0 true ⟨3 / 10, 1, 1, true⟩
      ⟨⟨3 / 5, 3 / 10, 1 / 10⟩, 1 / 4, 1 / 2, 20⟩ (by norm_num)⟩

/-! ### C6 — non-staker zeroing -/

/-- C6: in the tiered staking model (both the linear and the compounding
accrual variant), a non-top-staker gets exactly zero SOL and token reward
components and a total exactly equal to `initialDeposit`, for every time and
every parameter set. -/
theorem m3m3_nonstaker_zero (d e t : ℝ) (rp : Chart2.RewardParams) :
    (Chart1.calculateM3M3Returns d e t false).m3m3Total = d ∧
    (Chart1.calculateM3M3Returns d e t false).m3m3Sol = 0 ∧
    (Chart1.calculateM3M3Returns d e t false).m3m3Token = 0 ∧
    (Chart2.calculateM3M3Returns d e t false rp).total = d ∧
    (Chart2.calculateM3M3Returns d e t false rp).sol = 0 ∧
    (Chart2.calculateM3M3Returns d e t false rp).token = 0 ∧
    (Chart2.calculateM3M3Returns d e t false rp).apy = 0 := by
  simp [Chart1.calculateM3M3Returns, Chart2.calculateM3M3Returns]

/-! ### C7 — time-axis shape -/

/-- C7: the half-step generator produces exactly `2 * timeframe + 1` points
`i / 2` covering `0 .. timeframe` inclusive in strictly increasing order;
the integer-step loop (whose horizon is the constant `20`) produces exactly
`20 + 1` points whose times are `0, 1, ..., 20`, in strictly increasing
order. -/
theorem series_shape (tf : ℕ) (d e : ℝ) (staker : Bool)
    (ip : Chart2.InvestmentParams) (bp : Chart2.BondingParams)
    (rp : Chart2.RewardParams) :
    (Chart2.timePoints tf).length = 2 * tf + 1 ∧
    (Chart2.generateSimulationData tf d staker ip bp rp).length = 2 * tf + 1 ∧
    (Chart2.generateSimulationData tf d staker ip bp rp).map
        (fun p => p.time) = Chart2.timePoints tf ∧
    (Chart2.timePoints tf).Pairwise (· < ·) ∧
    (0 : ℝ) ∈ Chart2.timePoints tf ∧
    ((tf : ℝ)) ∈ Chart2.timePoints tf ∧
    (∀ x ∈ Chart2.timePoints tf, 0 ≤ x ∧ x ≤ (tf : ℝ)) ∧
    (Chart1.simulationData d e staker).length = 20 + 1 ∧
    (Chart1.simulationData d e staker).map (fun p => p.time)
        = (List.range 21).map (fun t : ℕ => (t : ℝ)) ∧
    (Chart1.simulationData d e staker).Pairwise (fun p q => p.time < q.time) := by
  have htp_len : (Chart2.timePoints tf).length = 2 * tf + 1 := by
    rw [Chart2.timePoints, List.length_map, List.length_range]; omega
  have hfun2 : ((fun p : Chart2.ProtocolData => p.time)
      ∘ Chart2.mkSimPoint d staker ip bp rp) = fun t : ℝ => t :=
    funext fun t => rfl
  have hfun1 : ((fun p : Chart1.ProtocolData => p.time)
      ∘ Chart1.mkSimPoint d e staker) = fun t : ℕ => (t : ℝ) :=
    funext fun t => rfl
  refine ⟨htp_len, ?_, ?_, ?_, ?_, ?_, ?_, ?_, ?_, ?_⟩
  · rw [Chart2.generateSimulationData, List.length_map]; exact htp_len
  · rw [Chart2.generateSimulationData, List.map_map, hfun2, List.map_id']
  · rw [Chart2.timePoints, List.pairwise_map]
    refine List.Pairwise.imp ?_ (List.pairwise_lt_range _)
    intro a b hab
    have hab' : (a : ℝ) < b := by exact_mod_cast hab
    linarith
  · rw [Chart2.timePoints]
    exact List.mem_map.mpr ⟨0, List.mem_range.mpr (by omega), by norm_num⟩
  · rw [Chart2.timePoints]
    exact List.mem_map.mpr ⟨2 * tf, List.mem_range.mpr (by omega),
      by push_cast; ring⟩
  · intro x hx
    rw [Chart2.timePoints] at hx
    rcases List.mem_map.mp hx with ⟨i, hi, rfl⟩
    have hi0 : i ≤ 2 * tf := by
      have := List.mem_range.mp hi; omega
    have hi' : (i : ℝ) ≤ (2 * tf : ℕ) := Nat.cast_le.mpr hi0
    push_cast at hi'
    constructor
    · positivity
    · linarith
  · rw [Chart1.simulationData, List.length_map, List.length_range]
  · rw [Chart1.simulationData, List.map_map, hfun1]
  · rw [Chart1.simulationData, List.pairwise_map]
    refine List.Pairwise.imp ?_ (List.pairwise_lt_range _)
    intro a b hab
    show (a : ℝ) < (b : ℝ)
    exact_mod_cast hab

/-! ### C8 — concrete hybrid-model scenario -/

/-- C8: at `initialDeposit = 1000`, `entryTime = 0`, `t = 0`,
`isTopStaker = false`, the hybrid model yields `lpTokens = 900` (the 600 LP
portion plus a 300 early bonus), `ammFees = 0`, `stakingRewards = 0`,
`nonLPValue = 400 * 1.3 ^ 0 = 400` and `total = 1300`. -/
theorem ripper_concrete_scenario :
    Chart1.ripperLPTokens 1000 0 = 900 ∧
    (Chart1.calculateRipperReturns 1000 0 0 false).ripperAMM = 0 ∧
    (Chart1.calculateRipperReturns 1000 0 0 false).ripperStaking = 0 ∧
    Chart1.ripperNonLPValue 1000 0 = 400 ∧
    (Chart1.calculateRipperReturns 1000 0 0 false).ripperTotal = 1300 := by
  have hlp : Chart1.ripperLPTokens 1000 0 = 900 := by
    simp only [Chart1.ripperLPTokens]
    rw [if_pos (by norm_num : (0 : ℝ) ≤ 4)]
    norm_num
  have hmc : Chart1.calculateMCMultiplier 0 = 1 := by
    rw [Chart1.calculateMCMultiplier, if_pos (by norm_num : (0 : ℝ) < 5),
      Real.rpow_zero]
  have hnlp : Chart1.ripperNonLPValue 1000 0 = 400 := by
    rw [Chart1.ripperNonLPValue, hmc]
    norm_num
  refine ⟨hlp, ?_, ?_, hnlp, ?_⟩ <;>
    simp [Chart1.calculateRipperReturns, timeHeld, hlp, hnlp] <;> norm_num

/-! ### C9 — zero period count in the compounding variant -/

/-- C9: for a top staker with `compoundPeriod * timeHeld = 0` (in particular
whenever `currentTime <= entryTime`), the compounding variant returns total
exactly `initialDeposit` and zero reward components — in the real model
because `x ^ 0 = 1`, and in the JS number model because the internal
`apy / 0 = Infinity` is neutralized by `Math.pow(Infinity, 0) = 1`, so the
division by a zero period count produces no non-finite or nonzero reward in
the output. -/
theorem m3m3_zero_periods (d e t sr cp lm : ℝ) (sc : Bool)
    (h : cp * timeHeld e t = 0) :
    (Chart2.calculateM3M3Returns d e t true ⟨sr, cp, lm, sc⟩).total = d ∧
    (Chart2.calculateM3M3Returns d e t true ⟨sr, cp, lm, sc⟩).sol = 0 ∧
    (Chart2.calculateM3M3Returns d e t true ⟨sr, cp, lm, sc⟩).token = 0 ∧
    (JS.jsCalculateM3M3Returns (.num d) (.num e) (.num t) true
        ⟨.num sr, .num cp, .num lm, sc⟩).total = .num d ∧
    (JS.jsCalculateM3M3Returns (.num d) (.num e) (.num t) true
        ⟨.num sr, .num cp, .num lm, sc⟩).sol = .num 0 ∧
    (JS.jsCalculateM3M3Returns (.num d) (.num e) (.num t) true
        ⟨.num sr, .num cp, .num lm, sc⟩).token = .num 0 := by
  have h0 : (0 : ℝ) ≤ timeHeld e t := le_max_left _ _
  have hA : (0 : ℝ) < 0.35 * min (1 + timeHeld e t * 0.15) 3 :=
    mul_pos (by norm_num) (lt_min (by nlinarith) (by norm_num))
  have hmax : max (0 : ℝ) (t - e) = timeHeld e t := rfl
  refine ⟨?_, ?_, ?_, ?_, ?_, ?_⟩
  · simp [Chart2.calculateM3M3Returns, Chart2.calculateCompoundedReturns, h,
      Real.rpow_zero]
  · simp [Chart2.calculateM3M3Returns, Chart2.calculateCompoundedReturns, h,
      Real.rpow_zero]
  · simp [Chart2.calculateM3M3Returns, Chart2.calculateCompoundedReturns, h,
      Real.rpow_zero]
  all_goals
    simp only [JS.jsCalculateM3M3Returns, JS.jsCalculateCompoundedReturns,
      Bool.not_true, Bool.false_eq_true, if_false, JS.jsSub_num, JS.jsMax_num,
      JS.jsMul_num, JS.jsAdd_num, JS.jsMin_num, hmax]
    rw [h, JS.jsDiv_num_zero_pos _ hA, JS.jsAdd_num_posInf, JS.jsPow_exp_zero]
    simp [JS.jsMul_num, JS.jsSub_num, JS.jsAdd_num]

/-- Witness for `m3m3_zero_periods` at `e = 1`, `t = 0` (`timeHeld = 0`),
`compoundPeriod = 1`. -/
theorem m3m3_zero_periods_witness :
    (1 : ℝ) * timeHeld 1 0 = 0 ∧
    ((Chart2.calculateM3M3Returns 1000 1 0 true ⟨3 / 10, 1, 1, true⟩).total
        = 1000 ∧
    (Chart2.calculateM3M3Returns 1000 1 0 true ⟨3 / 10, 1, 1, true⟩).sol = 0 ∧
    (Chart2.calculateM3M3Returns 1000 1 0 true ⟨3 / 10, 1, 1, true⟩).token = 0 ∧
    (JS.jsCalculateM3M3Returns (.num 1000) (.num 1) (.num 0) true
        ⟨.num (3 / 10), .num 1, .num 1, true⟩).total = .num 1000 ∧
    (JS.jsCalculateM3M3Returns (.num 1000) (.num 1) (.num 0) true
        ⟨.num (3 / 10), .num 1, .num 1, true⟩).sol = .num 0 ∧
    (JS.jsCalculateM3M3Returns (.num 1000) (.num 1) (.num 0) true
        ⟨.num (3 / 10), .num 1, .num 1, true⟩).token = .num 0) :=
  ⟨by norm_num [timeHeld],
    m3m3_zero_periods 1000 1 0 (3 / 10) 1 1 true (by norm_num [timeHeld])⟩

/-! ### C10 — Gobbler evenness in the deposit -/

/-- C10: the virtual-liquidity Gobbler computes its base liquidity as
`sqrt(initialDeposit * initialDeposit) = |initialDeposit|`, so the model is
an even function of the deposit: for every entry time, current time and
parameter set, a negative deposit produces exactly the same result record
(liquidity, virtual liquidity, fees, total) as the positive deposit of equal
magnitude. -/
theorem gobbler_even_in_deposit (d e t : ℝ) (ip : Chart2.InvestmentParams) :
    Chart2.calculateGobblerReturns (-d) e t ip
        = Chart2.calculateGobblerReturns d e t ip ∧
    (Chart2.calculateGobblerReturns d e t ip).liquidity = |d| := by
  constructor
  · simp [Chart2.calculateGobblerReturns, neg_mul_neg]
  · simp [Chart2.calculateGobblerReturns, Real.sqrt_mul_self_eq_abs]

end Launchpad
